import Mathlib

/-
Verification of the python-swat native-extension build orchestrator and
runtime binding bridge.

The development shallowly embeds the two source files of this repository:
  * swat/clib.py  — the runtime binding bridge (lazy extension load, the
    six SW_* constructor forwarders, InitializeTK with its scoped TKPATH
    environment patch, and the errorcheck protocol);
  * setup.py      — the build orchestrator (toolchain probes, temporary
    staging workspace, dependency fetch, platform classification, macOS
    deployment-target parsing, and the link-preparation appends).

Stateful pieces (the process environment, the staging filesystem, the
subprocess log) are embedded as explicit state passing; Python exceptions
become `Except` values.
-/

namespace Swat

/-! ### Process environment (os.environ), as an association list -/

abbrev Env := List (String × String)

def envLookup : Env → String → Option String
  | [], _ => none
  | (k2, v) :: t, k => if k2 = k then some v else envLookup t k

def envMem (e : Env) (k : String) : Bool := (envLookup e k).isSome

def envSet : Env → String → String → Env
  | [], k, v => [(k, v)]
  | (k2, v2) :: t, k, v => if k2 = k then (k, v) :: t else (k2, v2) :: envSet t k v

def envDel : Env → String → Env
  | [], _ => []
  | (k2, v2) :: t, k => if k2 = k then envDel t k else (k2, v2) :: envDel t k

/-! ### Character/string helpers shared by clib.py and setup.py -/

/-- Python str.lower(), on the ASCII range that platform/machine strings use. -/
def lowerChar (c : Char) : Char :=
  if 'A' ≤ c ∧ c ≤ 'Z' then Char.ofNat (c.toNat + 32) else c

def lowerStr (s : String) : String := String.mk (s.data.map lowerChar)

/-- Python str.startswith on character lists. -/
def startsWithChars : List Char → List Char → Bool
  | _, [] => true
  | [], _ :: _ => false
  | a :: as, b :: bs => (a == b) && startsWithChars as bs

/-- Python substring containment (`'ppc' in platform.machine()`). -/
def containsSub : List Char → List Char → Bool
  | [], pat => pat.isEmpty
  | a :: t, pat => startsWithChars (a :: t) pat || containsSub t pat

/-- sys.platform.lower().startswith('win') -/
def platformIsWin (sysPlatform : String) : Bool :=
  startsWithChars (lowerStr sysPlatform).data "win".data

/-- os.pathsep of the host the branch runs on. -/
def pathsep (sysPlatform : String) : String :=
  if platformIsWin sysPlatform then ";" else ":"

/-! ### Python exceptions, as a value type -/

deriving instance DecidableEq for Except

inductive PyErr where
  | valueError (msg : String)
  | nameError (nm : String)
  | keyError (key : String)
  | runtimeError (msg : String)
  | calledProcessError (cmd : List String)
  | osError (cmd : List String)
  | nativeError (msg : String)
deriving DecidableEq

/-! ### clib.py — errorcheck (lines 116-142) -/

/-- A native SWIG handle, exposing only its last-error-message query
(the entire wire contract between the native client and the bridge). -/
structure SWHandle where
  lastErrorMessage : String
deriving DecidableEq

def getLastErrorMessage (h : SWHandle) : String := h.lastErrorMessage

/-- Modelled from the spec: `a2u` lives in swat/utils/compat.py, which is
not under src/; per the spec it UTF-8-decodes the native message text.
With native messages modelled as already-decoded text, the decode is the
identity on that text. -/
def a2u (msg : String) (_encoding : String) : String := msg

structure SWATError where
  message : String
deriving DecidableEq

/-- clib.py lines 116-142: `if obj is not None: msg = obj.getLastErrorMessage();
if msg: raise SWATError(a2u(msg, 'utf-8'))` then `return expr`. -/
def errorcheck {α : Type} (expr : α) (obj : Option SWHandle) : Except SWATError α :=
  match obj with
  | some o =>
    let msg := getLastErrorMessage o
    if msg ≠ "" then Except.error ⟨a2u msg "utf-8"⟩ else Except.ok expr
  | none => Except.ok expr

/-! ### clib.py — load state and the SW_* forwarders (lines 33-94) -/

inductive LoadState where
  | loaded
  | loadFailed
deriving DecidableEq

/-- clib.py lines 33-38: the import of `_pyswat` is wrapped in
try/except ImportError, so importing the package never raises; it only
records the load state (and leaves the name `_pyswat` unbound on failure). -/
def importClib (extensionImportOk : Bool) : LoadState :=
  if extensionImportOk then LoadState.loaded else LoadState.loadFailed

def pyswatErrorMsg : String :=
  "Could not import import C extension.  This is likely due to the SWAT package being installed from source rather than being compiled. You can try using the REST interface as an alternative."

/-- clib.py lines 43-46: `_pyswat_error` raises ValueError with the
fallback-transport advice; this is the BindingUnavailable error. -/
def pyswatError : PyErr := PyErr.valueError pyswatErrorMsg

/-- clib.py lines 49-53. -/
def SW_CASConnection (st : LoadState) (native : List String → Nat) (args : List String) :
    Except PyErr Nat :=
  match st with
  | LoadState.loadFailed => Except.error pyswatError
  | LoadState.loaded => Except.ok (native args)

/-- clib.py lines 56-60. -/
def SW_CASValueList (st : LoadState) (native : List String → Nat) (args : List String) :
    Except PyErr Nat :=
  match st with
  | LoadState.loadFailed => Except.error pyswatError
  | LoadState.loaded => Except.ok (native args)

/-- clib.py lines 63-67. -/
def SW_CASFormatter (st : LoadState) (native : List String → Nat) (args : List String) :
    Except PyErr Nat :=
  match st with
  | LoadState.loadFailed => Except.error pyswatError
  | LoadState.loaded => Except.ok (native args)

/-- clib.py lines 70-74. -/
def SW_CASConnectionEventWatcher (st : LoadState) (native : List String → Nat)
    (args : List String) : Except PyErr Nat :=
  match st with
  | LoadState.loadFailed => Except.error pyswatError
  | LoadState.loaded => Except.ok (native args)

/-- clib.py lines 77-81. -/
def SW_CASDataBuffer (st : LoadState) (native : List String → Nat) (args : List String) :
    Except PyErr Nat :=
  match st with
  | LoadState.loadFailed => Except.error pyswatError
  | LoadState.loaded => Except.ok (native args)

/-- clib.py lines 84-88. -/
def SW_CASError (st : LoadState) (native : List String → Nat) (args : List String) :
    Except PyErr Nat :=
  match st with
  | LoadState.loadFailed => Except.error pyswatError
  | LoadState.loaded => Except.ok (native args)

/-! ### clib.py — InitializeTK (lines 91-113) -/

def mapNativeOut : Except String Nat → Except PyErr Nat
  | Except.ok v => Except.ok v
  | Except.error m => Except.error (PyErr.nativeError m)

structure TKCall where
  result : Except PyErr Nat
  envAtNativeCall : Env
  envFinal : Env
  nativeCalled : Bool

/-- clib.py lines 91-113.  When the extension failed to load, the name
`_pyswat` is unbound, so the guard `if _pyswat is None:` raises NameError
before anything else (the helper `_import_pyswat` it would call is not
defined anywhere in the module either).  When loaded: on a ppc machine
with TKPATH unset, TKPATH is set from args[0] (if args are given) before
the native call; the `finally` block deletes TKPATH whenever the
set_tkpath_env flag was true — Python `del os.environ[...]` raises
KeyError if the key is absent, and an exception raised inside `finally`
replaces the pending result and skips the rest of the block; afterwards,
on win platforms, TKPATH is set to os.pathsep if still unset. -/
def InitializeTK (st : LoadState) (machine sysPlatform : String) (env : Env)
    (args : List String) (native : Except String Nat) : TKCall :=
  match st with
  | LoadState.loadFailed => ⟨Except.error (PyErr.nameError "_pyswat"), env, env, false⟩
  | LoadState.loaded =>
    let set_tkpath_env := containsSub machine.data "ppc".data && !(envMem env "TKPATH")
    let env1 := if set_tkpath_env && !args.isEmpty
                then envSet env "TKPATH" (args.headD "") else env
    let fin :=
      if set_tkpath_env then
        if envMem env1 "TKPATH" then
          let env2 := envDel env1 "TKPATH"
          let env3 := if platformIsWin sysPlatform && !(envMem env2 "TKPATH")
                      then envSet env2 "TKPATH" (pathsep sysPlatform) else env2
          (mapNativeOut native, env3)
        else
          (Except.error (PyErr.keyError "TKPATH"), env1)
      else
        let env3 := if platformIsWin sysPlatform && !(envMem env1 "TKPATH")
                    then envSet env1 "TKPATH" (pathsep sysPlatform) else env1
        (mapNativeOut native, env3)
    ⟨fin.1, env1, fin.2, true⟩

/-! ### setup.py — toolchain probes (lines 49-69) -/

/-- Outcome of launching an external probe command: the process ran and
exited with a code, or the binary could not be located at all. -/
inductive ProbeResult where
  | exit (code : Nat)
  | notFound
deriving DecidableEq

def goVersionCmd : List String := ["go", "version"]

def swigVersionCmd : List String := ["swig", "-version"]

def goMissingHint : String :=
  "The Go tools do not appear to be installed.  Make sure that they are installed (see https://golang.org) and that the go command is in your system path."

def swigMissingHint : String :=
  "SWIG does not appear to be installed.  Make sure that it is installed (see http://www.swig.org) and that the swig command is in your system path."

/-- subprocess.check_call: raises CalledProcessError on a non-zero exit
status, and OSError (FileNotFoundError) when the binary cannot be located. -/
def check_call_result (cmd : List String) : ProbeResult → Except PyErr Unit
  | ProbeResult.exit 0 => Except.ok ()
  | ProbeResult.exit _ => Except.error (PyErr.calledProcessError cmd)
  | ProbeResult.notFound => Except.error (PyErr.osError cmd)

/-- setup.py lines 51-69: each probe is wrapped in
`try: ... except subprocess.CalledProcessError: raise RuntimeError(hint)`;
only CalledProcessError is caught — any other exception propagates. -/
def probeToolchain (cmd : List String) (hint : String) (r : ProbeResult) :
    Except PyErr Unit :=
  match check_call_result cmd r with
  | Except.ok () => Except.ok ()
  | Except.error (PyErr.calledProcessError _) => Except.error (PyErr.runtimeError hint)
  | Except.error e => Except.error e

def validateToolchains (goProbe swigProbe : ProbeResult) : Except PyErr Unit :=
  match probeToolchain goVersionCmd goMissingHint goProbe with
  | Except.error e => Except.error e
  | Except.ok () => probeToolchain swigVersionCmd swigMissingHint swigProbe

/-- setup.py lines 49-89: both probes run before `with self._tmpdir()` /
`os.makedirs`, so an early validator failure leaves the filesystem
untouched; the Bool records whether staging-directory creation was reached. -/
def buildStepStart (goProbe swigProbe : ProbeResult) : Except PyErr Unit × Bool :=
  match validateToolchains goProbe swigProbe with
  | Except.error e => (Except.error e, false)
  | Except.ok () => (Except.ok (), true)

/-! ### setup.py — dependency fetch (lines 35-36, 93-103) -/

def GO_GET_FLAGS : List String := ["-insecure"]

def LIBSWAT_ROOT : String := "gitlab.sas.com/kesmit/go-libswat"

def goGetCmd (flags : List String) (root : String) : List String :=
  ["go", "get", "-d"] ++ flags ++ [root]

/-- subprocess.check_call of a fetch attempt with the given outcome. -/
def check_call (cmd : List String) (ok : Bool) : Except PyErr Unit :=
  if ok then Except.ok () else Except.error (PyErr.calledProcessError cmd)

/-- setup.py lines 96-103: two sequential `try: self._check_call(cmd, ...)
except: pass` blocks with the same cmd — each attempt's failure is
swallowed, and the second attempt is not guarded on the first's outcome.
Returns the list of subprocess invocations made and the step's own exit. -/
def goGetStep (cmd : List String) (ok1 ok2 : Bool) :
    List (List String) × Except PyErr Unit :=
  let log1 : List (List String) := [cmd]
  let _attempt1 := check_call cmd ok1
  let log2 := log1 ++ [cmd]
  let _attempt2 := check_call cmd ok2
  (log2, Except.ok ())

/-! ### setup.py — platform classification (lines 71-77) -/

inductive Profile where
  | win
  | osx
  | unix
deriving DecidableEq

/-- setup.py lines 71-77: `platform = sys.platform.lower()` then
startswith('win') / startswith('darwin') / else. -/
def classify (sysPlatform : String) : Profile :=
  let p := (lowerStr sysPlatform).data
  if startsWithChars p "win".data then Profile.win
  else if startsWithChars p "darwin".data then Profile.osx
  else Profile.unix

/-! ### setup.py — macOS deployment target parsing (lines 105-112) -/

def splitDashAux (cur : List Char) : List Char → List (List Char)
  | [] => [cur.reverse]
  | c :: t => if c = '-' then cur.reverse :: splitDashAux [] t
              else splitDashAux (c :: cur) t

/-- Python str.split('-'). -/
def splitDash (l : List Char) : List (List Char) := splitDashAux [] l

def dropDigits : List Char → List Char
  | [] => []
  | c :: t => if c.isDigit then dropDigits t else c :: t

/-- Greedy match of `\d+` at the front; `some rest` when at least one
digit was consumed. -/
def matchDigits1 : List Char → Option (List Char)
  | [] => none
  | c :: t => if c.isDigit then some (dropDigits t) else none

/-- re.match truthiness for the pattern `^\d+\.\d+` — anchored at the
start only, so trailing characters after the minor digits are allowed. -/
def reMatchMajMin (l : List Char) : Bool :=
  match matchDigits1 l with
  | none => false
  | some rest =>
    match rest with
    | '.' :: r2 => (matchDigits1 r2).isSome
    | _ => false

/-- Modelled from the spec: a field "of the exact `<major>.<minor>`
numeric form" — digits, a dot, digits, and nothing after them. -/
def exactMajMin (l : List Char) : Bool :=
  match matchDigits1 l with
  | some ('.' :: r2) =>
    match matchDigits1 r2 with
    | some [] => true
    | _ => false
  | _ => false

/-- setup.py lines 106-109: `plat = os.environ.get('PLAT', '-10.7-').split('-')`;
the MACOSX_DEPLOYMENT_TARGET override is set to plat[1] iff
`len(plat) > 1 and re.match(r'^\d+\.\d+', plat[1])`. -/
def macosDeployTarget (platEnv : Option String) : Option String :=
  let plat := splitDash (platEnv.getD "-10.7-").data
  if plat.length > 1 && reMatchMajMin (plat.getD 1 [])
  then some (String.mk (plat.getD 1 []))
  else none

/-! ### setup.py — link preparation appends (lines 127-137) -/

structure Ext where
  extra_compile_args : List String
  include_dirs : List String
  extra_link_args : List String
deriving DecidableEq

def warnFlags : List String :=
  ["-Wno-unused-variable", "-Wno-unused-label", "-Wno-unused-function",
   "-Wno-visibility", "-Wno-strict-prototypes"]

/-- setup.py lines 127-137: the five warning-suppression compile flags are
appended unconditionally; the include dir and the archive link argument
are appended only after an `in` membership check. -/
def linkPrep (ext : Ext) (root_path libswat_a : String) : Ext :=
  let e1 := { ext with extra_compile_args := ext.extra_compile_args ++ ["-Wno-unused-variable"] }
  let e2 := { e1 with extra_compile_args := e1.extra_compile_args ++ ["-Wno-unused-label"] }
  let e3 := { e2 with extra_compile_args := e2.extra_compile_args ++ ["-Wno-unused-function"] }
  let e4 := { e3 with extra_compile_args := e3.extra_compile_args ++ ["-Wno-visibility"] }
  let e5 := { e4 with extra_compile_args := e4.extra_compile_args ++ ["-Wno-strict-prototypes"] }
  let e6 := if root_path ∈ e5.include_dirs then e5
            else { e5 with include_dirs := e5.include_dirs ++ [root_path] }
  let e7 := if libswat_a ∈ e6.extra_link_args then e6
            else { e6 with extra_link_args := e6.extra_link_args ++ [libswat_a] }
  e7

/-! ### setup.py — staging workspace (lines 79, 164-174) -/

/-- The staging filesystem: a fresh-id counter and, per directory id, the
read-only flags of the files it holds. -/
structure FS where
  nextId : Nat
  dirs : List (Nat × List Bool)

def dirLookup : List (Nat × List Bool) → Nat → Option (List Bool)
  | [], _ => none
  | (d2, files) :: t, d => if d2 = d then some files else dirLookup t d

/-- tempfile.mkdtemp: returns a fresh, exclusively owned directory. -/
def mkdtemp (fs : FS) : Nat × FS :=
  (fs.nextId, ⟨fs.nextId + 1, (fs.nextId, []) :: fs.dirs⟩)

def writeFiles (dirs : List (Nat × List Bool)) (d : Nat) (files : List Bool) :
    List (Nat × List Bool) :=
  dirs.map (fun p => if p.1 = d then (p.1, p.2 ++ files) else p)

/-- A plain os remove of one file: fails when the file is read-only
(the Windows behavior the source's onerror comment refers to). -/
def removeFile (readOnly : Bool) : Except Unit Unit :=
  if readOnly then Except.error () else Except.ok ()

/-- setup.py lines 170-173: the rmtree onerror handler —
`os.chmod(name, stat.S_IWRITE)` clears the read-only attribute, then the
failed action is retried on the now-writable file. -/
def removeWithRetry (readOnly : Bool) : Bool :=
  match removeFile readOnly with
  | Except.ok () => true
  | Except.error () =>
    match removeFile false with
    | Except.ok () => true
    | Except.error () => false

/-- shutil.rmtree(tempdir, onerror=err): the directory entry disappears
when every file removal (with the retry handler) succeeded. -/
def rmtree (fs : FS) (d : Nat) : FS :=
  let ok := ((dirLookup fs.dirs d).getD []).all removeWithRetry
  if ok then ⟨fs.nextId, fs.dirs.filter (fun p => !(p.1 == d))⟩ else fs

/-- setup.py lines 164-174 with line 79: `tempdir = tempfile.mkdtemp()`,
the body runs (writing `bodyFiles` into the workspace and exiting either
normally or with an exception `bodyOutcome`), and the `finally` clause
runs shutil.rmtree with the onerror handler exactly once on every exit
path.  Returns the body's outcome, the final filesystem, and the number
of release (rmtree) calls performed. -/
def tmpdirScope (fs : FS) (bodyFiles : List Bool) (bodyOutcome : Except PyErr Nat) :
    Except PyErr Nat × FS × Nat :=
  let md := mkdtemp fs
  let d := md.1
  let fs1 := md.2
  let fs2 : FS := ⟨fs1.nextId, writeFiles fs1.dirs d bodyFiles⟩
  let fs3 := rmtree fs2 d
  (bodyOutcome, fs3, 1)

/-! ## Helper lemmas -/

theorem envLookup_set_self (e : Env) (k v : String) :
    envLookup (envSet e k v) k = some v := by
  induction e with
  | nil => simp [envSet, envLookup]
  | cons p t ih =>
    obtain ⟨k2, v2⟩ := p
    by_cases h : k2 = k <;> simp [envSet, envLookup, h, ih]

theorem envLookup_set_ne (e : Env) (k v k2 : String) (h : k2 ≠ k) :
    envLookup (envSet e k v) k2 = envLookup e k2 := by
  induction e with
  | nil => simp [envSet, envLookup, Ne.symm h]
  | cons p t ih =>
    obtain ⟨k3, v3⟩ := p
    by_cases h3 : k3 = k
    · subst h3
      simp [envSet, envLookup, Ne.symm h]
    · simp [envSet, envLookup, h3, ih]

theorem envLookup_del_self (e : Env) (k : String) :
    envLookup (envDel e k) k = none := by
  induction e with
  | nil => simp [envDel, envLookup]
  | cons p t ih =>
    obtain ⟨k2, v2⟩ := p
    by_cases h : k2 = k <;> simp [envDel, envLookup, h, ih]

theorem envLookup_del_ne (e : Env) (k k2 : String) (h : k2 ≠ k) :
    envLookup (envDel e k) k2 = envLookup e k2 := by
  induction e with
  | nil => simp [envDel, envLookup]
  | cons p t ih =>
    obtain ⟨k3, v3⟩ := p
    by_cases h3 : k3 = k
    · subst h3
      simp [envDel, envLookup, Ne.symm h, ih]
    · simp [envDel, envLookup, h3, ih]

theorem linkPrep_compile_args (ext : Ext) (r a : String) :
    (linkPrep ext r a).extra_compile_args = ext.extra_compile_args ++ warnFlags := by
  simp only [linkPrep]
  split_ifs <;> simp [warnFlags]

theorem linkPrep_include_dirs (ext : Ext) (r a : String) :
    (linkPrep ext r a).include_dirs =
      if r ∈ ext.include_dirs then ext.include_dirs else ext.include_dirs ++ [r] := by
  simp only [linkPrep]
  split_ifs <;> simp

theorem linkPrep_link_args (ext : Ext) (r a : String) :
    (linkPrep ext r a).extra_link_args =
      if a ∈ ext.extra_link_args then ext.extra_link_args
      else ext.extra_link_args ++ [a] := by
  simp only [linkPrep]
  split_ifs <;> simp

theorem mem_linkPrep_include (ext : Ext) (r a : String) :
    r ∈ (linkPrep ext r a).include_dirs := by
  rw [linkPrep_include_dirs]
  split_ifs with h
  · exact h
  · exact List.mem_append.mpr (Or.inr (List.mem_singleton.mpr rfl))

theorem mem_linkPrep_link (ext : Ext) (r a : String) :
    a ∈ (linkPrep ext r a).extra_link_args := by
  rw [linkPrep_link_args]
  split_ifs with h
  · exact h
  · exact List.mem_append.mpr (Or.inr (List.mem_singleton.mpr rfl))

theorem removeWithRetry_eq_true (b : Bool) : removeWithRetry b = true := by
  cases b <;> rfl

theorem all_removeWithRetry (l : List Bool) : l.all removeWithRetry = true := by
  induction l with
  | nil => rfl
  | cons b t ih => simp [List.all_cons, removeWithRetry_eq_true, ih]

theorem dirLookup_filter_self (l : List (Nat × List Bool)) (d : Nat) :
    dirLookup (l.filter (fun p => !(p.1 == d))) d = none := by
  induction l with
  | nil => simp [dirLookup]
  | cons p t ih =>
    obtain ⟨d2, files⟩ := p
    by_cases h : d2 = d
    · subst h
      simpa [List.filter_cons] using ih
    · simp [List.filter_cons, h, dirLookup, ih]

theorem splitDashAux_no_dash (l : List Char) (cur : List Char) (h : '-' ∉ l) :
    splitDashAux cur l = [cur.reverse ++ l] := by
  induction l generalizing cur with
  | nil => simp [splitDashAux]
  | cons c t ih =>
    have hc : ¬(c = '-') := by
      rintro rfl
      exact h (List.mem_cons_self _ _)
    have ht : '-' ∉ t := fun hm => h (List.mem_cons_of_mem _ hm)
    simp [splitDashAux, hc, ih _ ht]

theorem splitDash_dash_cons (l : List Char) :
    splitDash ('-' :: l) = [] :: splitDash l := by
  simp [splitDash, splitDashAux]

theorem dropDigits_digits_dot (t x : List Char) (ht : ∀ c ∈ t, c.isDigit = true) :
    dropDigits (t ++ '.' :: x) = '.' :: x := by
  induction t with
  | nil =>
    have hdot : ('.' : Char).isDigit = false := rfl
    simp [dropDigits, hdot]
  | cons c t2 ih =>
    have hc : c.isDigit = true := ht c (List.mem_cons_self _ _)
    simp [dropDigits, hc, ih fun d hd => ht d (List.mem_cons_of_mem _ hd)]

theorem matchDigits1_run (m rest : List Char) (hm : m ≠ [])
    (hd : ∀ c ∈ m, c.isDigit = true) :
    matchDigits1 (m ++ '.' :: rest) = some ('.' :: rest) := by
  cases m with
  | nil => exact absurd rfl hm
  | cons c t =>
    have hc : c.isDigit = true := hd c (List.mem_cons_self _ _)
    simp [matchDigits1, hc,
      dropDigits_digits_dot t rest fun d hd2 => hd d (List.mem_cons_of_mem _ hd2)]

theorem matchDigits1_isSome (m junk : List Char) (hm : m ≠ [])
    (hd : ∀ c ∈ m, c.isDigit = true) :
    (matchDigits1 (m ++ junk)).isSome = true := by
  cases m with
  | nil => exact absurd rfl hm
  | cons c t =>
    have hc : c.isDigit = true := hd c (List.mem_cons_self _ _)
    simp [matchDigits1, hc]

theorem reMatchMajMin_run (maj minr junk : List Char)
    (hmaj : maj ≠ []) (hmajd : ∀ c ∈ maj, c.isDigit = true)
    (hmin : minr ≠ []) (hmind : ∀ c ∈ minr, c.isDigit = true) :
    reMatchMajMin (maj ++ '.' :: (minr ++ junk)) = true := by
  rw [reMatchMajMin, matchDigits1_run maj (minr ++ junk) hmaj hmajd]
  simp [matchDigits1_isSome minr junk hmin hmind]

/-! ## Claim theorems -/

/-- C1: for every result value `expr` and every handle `obj`: if `obj` is
absent or its last-error message is the empty string, `errorcheck expr obj`
returns `expr` unchanged; if the message is non-empty, it raises SWATError
carrying exactly the UTF-8-decoded message, regardless of what `expr` is. -/
theorem errorcheck_spec {α : Type} (expr : α) (obj : Option SWHandle) :
    (obj = none → errorcheck expr obj = Except.ok expr)
    ∧ (∀ h, obj = some h → getLastErrorMessage h = "" →
        errorcheck expr obj = Except.ok expr)
    ∧ (∀ h, obj = some h → getLastErrorMessage h ≠ "" →
        errorcheck expr obj = Except.error ⟨a2u (getLastErrorMessage h) "utf-8"⟩) := by
  refine ⟨?_, ?_, ?_⟩
  · rintro rfl
    rfl
  · rintro h rfl hmsg
    simp [errorcheck, hmsg]
  · rintro h rfl hmsg
    simp [errorcheck, hmsg]

/-- C1 witness: a handle reporting "connection refused" makes
`errorcheck 42 handle` raise SWATError("connection refused"). -/
theorem errorcheck_spec_witness :
    errorcheck 42 (some ⟨"connection refused"⟩)
      = Except.error ⟨a2u "connection refused" "utf-8"⟩ :=
  (errorcheck_spec 42 (some ⟨"connection refused"⟩)).2.2
    ⟨"connection refused"⟩ rfl (by decide)

/-- C2: importing the package never raises (the load state is recorded
instead); after a failed load the six SW_* constructor forwarders raise
the BindingUnavailable ValueError before any native call — but the
initialization entry point does NOT: it raises NameError("_pyswat"),
because the name `_pyswat` is unbound after the failed import and the
helper `_import_pyswat` it would call is not defined anywhere.  This
demonstrates the code bug in the claim's InitializeTK case; no native
call is attempted there either. -/
theorem bridge_loadFailed_raises :
    (∀ b, importClib b = LoadState.loaded ∨ importClib b = LoadState.loadFailed)
    ∧ (∀ native args, SW_CASConnection LoadState.loadFailed native args
        = Except.error pyswatError)
    ∧ (∀ native args, SW_CASValueList LoadState.loadFailed native args
        = Except.error pyswatError)
    ∧ (∀ native args, SW_CASFormatter LoadState.loadFailed native args
        = Except.error pyswatError)
    ∧ (∀ native args, SW_CASConnectionEventWatcher LoadState.loadFailed native args
        = Except.error pyswatError)
    ∧ (∀ native args, SW_CASDataBuffer LoadState.loadFailed native args
        = Except.error pyswatError)
    ∧ (∀ native args, SW_CASError LoadState.loadFailed native args
        = Except.error pyswatError)
    ∧ (∀ machine plat env args native,
        (InitializeTK LoadState.loadFailed machine plat env args native).result
          = Except.error (PyErr.nameError "_pyswat")
        ∧ (InitializeTK LoadState.loadFailed machine plat env args native).nativeCalled
          = false) := by
  refine ⟨?_, fun _ _ => rfl, fun _ _ => rfl, fun _ _ => rfl, fun _ _ => rfl,
    fun _ _ => rfl, fun _ _ => rfl, fun _ _ _ _ _ => ⟨rfl, rfl⟩⟩
  intro b
  cases b <;> simp [importClib]

/-- C3 counterexample: with the default fetch command and a FIRST attempt
that succeeds, the step still invokes the command twice — the claim's
"exactly once when the first invocation succeeds" is false here. -/
theorem goGetStep_cex :
    ((goGetStep (goGetCmd GO_GET_FLAGS LIBSWAT_ROOT) true true).1.length = 1) = False
    ∧ (goGetStep (goGetCmd GO_GET_FLAGS LIBSWAT_ROOT) true true).1
        = [goGetCmd GO_GET_FLAGS LIBSWAT_ROOT, goGetCmd GO_GET_FLAGS LIBSWAT_ROOT] :=
  ⟨eq_false (by decide), rfl⟩

/-- C3 (amended): the dependency fetch step invokes the external fetch
command exactly twice with identical arguments, unconditionally — even
when the first invocation succeeds; the failures of both attempts are
swallowed, so the step never aborts the pipeline. -/
theorem goGetStep_always_twice (cmd : List String) (ok1 ok2 : Bool) :
    (goGetStep cmd ok1 ok2).1 = [cmd, cmd]
    ∧ (goGetStep cmd ok1 ok2).2 = Except.ok () :=
  ⟨rfl, rfl⟩

/-- C4 counterexample: running the link-preparation appends twice on an
initially empty build description leaves TWO occurrences of the
warning-suppression flag `-Wno-unused-variable`, not one — those five
appends perform no presence check. -/
theorem linkPrep_cex :
    (((linkPrep (linkPrep ⟨[], [], []⟩ "ROOT" "libswat.a") "ROOT" "libswat.a").extra_compile_args.count
        "-Wno-unused-variable" = 1) = False)
    ∧ ((linkPrep (linkPrep ⟨[], [], []⟩ "ROOT" "libswat.a") "ROOT" "libswat.a").extra_compile_args.count
        "-Wno-unused-variable" = 2)
    ∧ ((linkPrep (linkPrep ⟨[], [], []⟩ "ROOT" "libswat.a") "ROOT" "libswat.a").extra_link_args
        = ["libswat.a"]) :=
  ⟨eq_false (by decide), by decide, by decide⟩

/-- C4 (amended): only the include-path and link-argument appends check
for prior presence and are idempotent; the five warning-suppression
compile flags are appended unconditionally, so a second run duplicates
exactly them. -/
theorem linkPrep_partial_idempotent (ext : Ext) (r a : String) :
    (linkPrep (linkPrep ext r a) r a).include_dirs = (linkPrep ext r a).include_dirs
    ∧ (linkPrep (linkPrep ext r a) r a).extra_link_args = (linkPrep ext r a).extra_link_args
    ∧ (linkPrep (linkPrep ext r a) r a).extra_compile_args
        = (linkPrep ext r a).extra_compile_args ++ warnFlags := by
  refine ⟨?_, ?_, linkPrep_compile_args _ r a⟩
  · rw [linkPrep_include_dirs]
    exact if_pos (mem_linkPrep_include ext r a)
  · rw [linkPrep_link_args]
    exact if_pos (mem_linkPrep_link ext r a)

/-- C5 counterexample: when the go probe binary cannot be located, the
validator does not fail with the RuntimeError remediation hint — the
OSError escapes uncaught (only CalledProcessError is translated); no
staging directory has been created. -/
theorem toolchain_probe_cex :
    ((validateToolchains ProbeResult.notFound (ProbeResult.exit 0)
        = Except.error (PyErr.runtimeError goMissingHint)) = False)
    ∧ (validateToolchains ProbeResult.notFound (ProbeResult.exit 0)
        = Except.error (PyErr.osError goVersionCmd))
    ∧ ((buildStepStart ProbeResult.notFound (ProbeResult.exit 0)).2 = false) :=
  ⟨eq_false (by decide), by decide, rfl⟩

/-- C5 (amended): a non-zero probe exit status fails the validator with
the RuntimeError carrying the toolchain's remediation hint, while a probe
binary that cannot be located makes the underlying OSError propagate
uncaught (without the hint); in every failure case no subsequent build
step runs and no staging directory has been created. -/
theorem toolchain_validation_amended (g s : ProbeResult) :
    (∀ c, g = ProbeResult.exit (c + 1) →
      buildStepStart g s = (Except.error (PyErr.runtimeError goMissingHint), false))
    ∧ (g = ProbeResult.notFound →
      buildStepStart g s = (Except.error (PyErr.osError goVersionCmd), false))
    ∧ (∀ c, g = ProbeResult.exit 0 → s = ProbeResult.exit (c + 1) →
      buildStepStart g s = (Except.error (PyErr.runtimeError swigMissingHint), false))
    ∧ (g = ProbeResult.exit 0 → s = ProbeResult.notFound →
      buildStepStart g s = (Except.error (PyErr.osError swigVersionCmd), false))
    ∧ (g = ProbeResult.exit 0 → s = ProbeResult.exit 0 →
      buildStepStart g s = (Except.ok (), true)) := by
  refine ⟨?_, ?_, ?_, ?_, ?_⟩
  · rintro c rfl
    rfl
  · rintro rfl
    rfl
  · rintro c rfl rfl
    rfl
  · rintro rfl rfl
    rfl
  · rintro rfl rfl
    rfl

/-- C5 witness: a go probe exiting 1 yields the RuntimeError with the Go
remediation hint, before any filesystem mutation. -/
theorem toolchain_validation_amended_witness :
    buildStepStart (ProbeResult.exit 1) (ProbeResult.exit 0)
      = (Except.error (PyErr.runtimeError goMissingHint), false) :=
  (toolchain_validation_amended (ProbeResult.exit 1) (ProbeResult.exit 0)).1 0 rfl

/-- C6: during InitializeTK on a ppc machine with TKPATH unset and at
least one positional argument, TKPATH equals the first argument at the
moment of the native call; afterwards — on every exit path, for any
native outcome, including failure — it is deleted, so on non-Windows
hosts its absence is restored; on Windows hosts it is then set to the
path-separator sentinel since still unset; no other variable changes. -/
theorem initializeTK_env_restored (machine plat : String) (env : Env)
    (args : List String) (native : Except String Nat)
    (hppc : containsSub machine.data "ppc".data = true)
    (hunset : envMem env "TKPATH" = false)
    (hargs : args ≠ []) :
    envLookup (InitializeTK LoadState.loaded machine plat env args native).envAtNativeCall
        "TKPATH" = some (args.headD "")
    ∧ (platformIsWin plat = false →
        envMem (InitializeTK LoadState.loaded machine plat env args native).envFinal
          "TKPATH" = false)
    ∧ (platformIsWin plat = true →
        envLookup (InitializeTK LoadState.loaded machine plat env args native).envFinal
          "TKPATH" = some ";")
    ∧ (∀ k, k ≠ "TKPATH" →
        envLookup (InitializeTK LoadState.loaded machine plat env args native).envFinal k
          = envLookup env k) := by
  cases args with
  | nil => exact absurd rfl hargs
  | cons a as =>
    have hm1 : envMem (envSet env "TKPATH" a) "TKPATH" = true := by
      simp [envMem, envLookup_set_self]
    have hm2 : envMem (envDel (envSet env "TKPATH" a) "TKPATH") "TKPATH" = false := by
      simp [envMem, envLookup_del_self]
    have hstep : InitializeTK LoadState.loaded machine plat env (a :: as) native =
        ⟨mapNativeOut native,
         envSet env "TKPATH" a,
         (if platformIsWin plat
          then envSet (envDel (envSet env "TKPATH" a) "TKPATH") "TKPATH" (pathsep plat)
          else envDel (envSet env "TKPATH" a) "TKPATH"),
         true⟩ := by
      simp [InitializeTK, hppc, hunset, hm1, hm2]
    rw [hstep]
    refine ⟨envLookup_set_self env "TKPATH" a, ?_, ?_, ?_⟩
    · intro hw
      simp only [hw, if_false, Bool.false_eq_true]
      simpa [envMem] using envLookup_del_self (envSet env "TKPATH" a) "TKPATH"
    · intro hw
      simp only [hw, if_true]
      rw [envLookup_set_self]
      simp [pathsep, hw]
    · intro k hk
      by_cases hw : platformIsWin plat <;>
        simp [hw, envLookup_set_ne _ _ _ _ hk, envLookup_del_ne _ _ _ hk]

/-- C6 witness: on machine "ppc64le", platform "linux", empty environment,
args ["/opt/sas/tk"], and a FAILING native call, TKPATH is "/opt/sas/tk"
during the call and absent afterwards. -/
theorem initializeTK_env_restored_witness :
    envLookup (InitializeTK LoadState.loaded "ppc64le" "linux" [] ["/opt/sas/tk"]
        (Except.error "native failure")).envAtNativeCall "TKPATH" = some "/opt/sas/tk"
    ∧ envMem (InitializeTK LoadState.loaded "ppc64le" "linux" [] ["/opt/sas/tk"]
        (Except.error "native failure")).envFinal "TKPATH" = false := by
  have h := initializeTK_env_restored "ppc64le" "linux" [] ["/opt/sas/tk"]
    (Except.error "native failure") (by decide) (by decide) (by decide)
  exact ⟨h.1, h.2.1 (by decide)⟩

/-- C7: for every execution of the build step, whether the body returns
normally or raises, the staging directory acquired by the scoped context
manager is released (recursively removed) exactly once — no staging
directory survives — and the removal tolerates read-only files: a plain
remove of a read-only file fails, and the onerror handler's
clear-attribute-and-retry makes it succeed. -/
theorem tmpdir_releases_always (fs : FS) (bodyFiles : List Bool)
    (outcome : Except PyErr Nat) :
    dirLookup (tmpdirScope fs bodyFiles outcome).2.1.dirs fs.nextId = none
    ∧ (tmpdirScope fs bodyFiles outcome).1 = outcome
    ∧ (tmpdirScope fs bodyFiles outcome).2.2 = 1
    ∧ removeFile true = Except.error ()
    ∧ removeWithRetry true = true := by
  refine ⟨?_, rfl, rfl, rfl, rfl⟩
  simp only [tmpdirScope, mkdtemp, rmtree, all_removeWithRetry, if_true]
  exact dirLookup_filter_self _ _

/-- C8: platform classification is a total deterministic function of the
raw host platform string: a (case-normalized) "win" prefix maps to the
windows profile, a "darwin" prefix to the macOS profile, and every other
string to the unix-like profile. -/
theorem classify_total (s : String) :
    (startsWithChars (lowerStr s).data "win".data = true → classify s = Profile.win)
    ∧ (startsWithChars (lowerStr s).data "win".data = false →
        startsWithChars (lowerStr s).data "darwin".data = true → classify s = Profile.osx)
    ∧ (startsWithChars (lowerStr s).data "win".data = false →
        startsWithChars (lowerStr s).data "darwin".data = false →
        classify s = Profile.unix) := by
  refine ⟨fun h1 => ?_, fun h1 h2 => ?_, fun h1 h2 => ?_⟩ <;>
    simp [classify, h1]
  · simp [h2]
  · simp [h2]

/-- C8 witness: "linux2" carries neither prefix and classifies as the
unix-like profile. -/
theorem classify_total_witness : classify "linux2" = Profile.unix :=
  (classify_total "linux2").2.2 (by decide) (by decide)

/-- C9 counterexample: with PLAT="-10.7abc" the second dash-field
"10.7abc" is NOT of the exact `<major>.<minor>` numeric form, yet the
deployment-target override IS applied (re.match only anchors at the
start) and carries the whole field — the claim's "no override is
applied" is false here. -/
theorem deployTarget_cex :
    ((macosDeployTarget (some "-10.7abc") = none) = False)
    ∧ (macosDeployTarget (some "-10.7abc") = some "10.7abc")
    ∧ (exactMajMin "10.7abc".data = false) :=
  ⟨eq_false (by decide), by decide, by decide⟩

/-- C9 (amended): the deployment-target override is applied whenever the
"plat" string's second dash-field merely BEGINS with a
`<digits>.<digits>` pattern — trailing characters (no '-') do not
prevent it, and the entire field, trailing characters included, becomes
the override value. -/
theorem deployTarget_amended (maj minr junk : List Char)
    (hmaj : maj ≠ []) (hmajd : ∀ c ∈ maj, c.isDigit = true)
    (hmin : minr ≠ []) (hmind : ∀ c ∈ minr, c.isDigit = true)
    (hjunk : '-' ∉ junk) :
    macosDeployTarget (some (String.mk ('-' :: (maj ++ '.' :: (minr ++ junk)))))
      = some (String.mk (maj ++ '.' :: (minr ++ junk))) := by
  have hdig : ∀ c : Char, c.isDigit = true → ¬(c = '-') := by
    intro c hc he
    subst he
    exact absurd hc (by decide)
  have hnod : '-' ∉ maj ++ '.' :: (minr ++ junk) := by
    intro hmem
    rcases List.mem_append.mp hmem with h1 | h2
    · exact hdig '-' (hmajd _ h1) rfl
    · rcases List.mem_cons.mp h2 with h3 | h4
      · exact absurd h3 (by decide)
      · rcases List.mem_append.mp h4 with h5 | h6
        · exact hdig '-' (hmind _ h5) rfl
        · exact hjunk h6
  have hdata : (String.mk ('-' :: (maj ++ '.' :: (minr ++ junk)))).data
      = '-' :: (maj ++ '.' :: (minr ++ junk)) := rfl
  have hsplit : splitDash ('-' :: (maj ++ '.' :: (minr ++ junk)))
      = [[], maj ++ '.' :: (minr ++ junk)] := by
    rw [splitDash_dash_cons]
    have := splitDashAux_no_dash (maj ++ '.' :: (minr ++ junk)) [] hnod
    simpa [splitDash] using this
  simp [macosDeployTarget, hdata, hsplit,
    reMatchMajMin_run maj minr junk hmaj hmajd hmin hmind]

/-- C9 witness: PLAT="-10.7abc" (second field "10.7abc" = "10" "." "7"
and the dash-free suffix "abc") applies the override with value
"10.7abc". -/
theorem deployTarget_amended_witness :
    macosDeployTarget (some (String.mk ('-' :: ("10".data ++ '.' :: ("7".data ++ "abc".data)))))
      = some (String.mk ("10".data ++ '.' :: ("7".data ++ "abc".data))) :=
  deployTarget_amended "10".data "7".data "abc".data
    (by decide) (by decide) (by decide) (by decide) (by decide)

/-- C10: calling InitializeTK with zero positional arguments on a ppc
machine while TKPATH is unset makes the cleanup step raise
KeyError('TKPATH') — it deletes TKPATH without having set it — even when
the native initialization call succeeded, whose result is then lost. -/
theorem initializeTK_noargs_keyError (machine plat : String) (env : Env) (v : Nat)
    (hppc : containsSub machine.data "ppc".data = true)
    (hunset : envMem env "TKPATH" = false) :
    (InitializeTK LoadState.loaded machine plat env [] (Except.ok v)).result
      = Except.error (PyErr.keyError "TKPATH")
    ∧ (InitializeTK LoadState.loaded machine plat env [] (Except.ok v)).nativeCalled
      = true := by
  constructor <;> simp [InitializeTK, hppc, hunset]

/-- C10 witness: on machine "ppc", platform "linux2", empty environment
and a native call succeeding with 7, the call still ends in
KeyError('TKPATH'). -/
theorem initializeTK_noargs_keyError_witness :
    (InitializeTK LoadState.loaded "ppc" "linux2" [] [] (Except.ok 7)).result
      = Except.error (PyErr.keyError "TKPATH") :=
  (initializeTK_noargs_keyError "ppc" "linux2" [] 7 (by decide) (by decide)).1

end Swat
